import Mathlib

/-!
Verification of `src/main.py` (carbon-footprint client tracker).

The program is shallowly embedded below.  Python `float`s are modelled as
exact rationals together with an explicit IEEE-754 binary64 rounding
function `roundDouble` (round to nearest, ties to even); Python's
`repr`/`str` on floats (the shortest correctly-rounded round-tripping
decimal) is modelled by `pyRepr`.  The model covers the normal finite
range of doubles (magnitudes between 2^-600 and 2^1400, far beyond every
value these theorems touch); subnormals and infinities are outside its
scope.  File-system state (the CSV store, the chart image, the report
files) is explicit state threaded through the functions, and terminal
I/O is a trace of output events plus a list of input lines.
-/

namespace CarbonTracker

/-! ### Python string primitives -/

/-- Characters treated as whitespace by Python's `str.strip()` (ASCII part). -/
def pyIsSpace (c : Char) : Bool :=
  c = ' ' || c = '\t' || c = '\n' || c = '\x0d' || c = '\x0b' || c = '\x0c'

/-- Python `str.strip()`: drop leading and trailing whitespace. -/
def pyStrip (s : String) : String :=
  ⟨(s.data.dropWhile pyIsSpace).reverse.dropWhile pyIsSpace |>.reverse⟩

/-- Python `str.lower()` (ASCII part). -/
def pyLower (s : String) : String :=
  ⟨s.data.map Char.toLower⟩

/-! ### IEEE-754 binary64 rounding over ℚ

All computations below use `Rat.divInt` and integer arithmetic (never the
high-level `Rat` field operations), so that every concrete instance
reduces inside `decide`. -/

/-- `2 ^ k` by structural recursion. -/
def pow2 : Nat → Nat
  | 0 => 1
  | k + 1 => 2 * pow2 k

/-- `10 ^ k` by structural recursion. -/
def pow10 : Nat → Nat
  | 0 => 1
  | k + 1 => 10 * pow10 k

/-- Fuelled floor-log2 on naturals: for `1 ≤ n < 2^fuel` this returns the
unique `j` with `2^j ≤ n < 2^(j+1)`. -/
def log2fuel : Nat → Nat → Nat
  | 0, _ => 0
  | fuel + 1, n => if n < 2 then 0 else log2fuel fuel (n / 2) + 1

/-- Round a non-negative rational to the nearest natural, ties to even. -/
def rhe (q : ℚ) : Nat :=
  let n := q.num.toNat
  let d := q.den
  let fl := n / d
  let r := n % d
  if 2 * r < d then fl
  else if d < 2 * r then fl + 1
  else if fl % 2 = 0 then fl else fl + 1

/-- Nearest binary64 value of a positive rational (normal range):
find the binade, scale the value to `[2^52, 2^53)`, round to the nearest
integer significand with ties to even, and scale back. -/
def roundPosDouble (q : ℚ) : ℚ :=
  let n := q.num.toNat
  let d := q.den
  let k : Int := (log2fuel 4000 (n * pow2 600 / d) : Int) - 600
  let e : Int := k - 52
  let x : ℚ := if 0 ≤ e then Rat.divInt n (d * pow2 e.toNat)
               else Rat.divInt (n * pow2 (-e).toNat) d
  let m := rhe x
  if 0 ≤ e then Rat.divInt (m * pow2 e.toNat) 1 else Rat.divInt m (pow2 (-e).toNat)

/-- Nearest binary64 value of a rational (round to nearest, ties to even). -/
def roundDouble (q : ℚ) : ℚ :=
  if q = 0 then 0
  else if 0 < q then roundPosDouble q
  else -roundPosDouble (-q)

/-! ### Python float repr (shortest round-tripping decimal) -/

/-- Fuelled floor-log10 on naturals. -/
def log10fuel : Nat → Nat → Nat
  | 0, _ => 0
  | fuel + 1, n => if n < 10 then 0 else log10fuel fuel (n / 10) + 1

/-- Multiply a rational by `10^e` for an integer `e`. -/
def mulPow10 (q : ℚ) (e : Int) : ℚ :=
  if 0 ≤ e then Rat.divInt (q.num * pow10 e.toNat) q.den
  else Rat.divInt q.num (q.den * pow10 (-e).toNat)

/-- Format a `k`-digit decimal significand `D` with leading digit at
decimal position `E`, following CPython's float formatting: fixed
notation for `-4 ≤ E < 16`, exponent notation otherwise. -/
def fmtDecimal (D k : Nat) (E : Int) : String :=
  let s := toString D
  if -4 ≤ E ∧ E < 16 then
    if (k : Int) - 1 ≤ E then
      s ++ String.mk (List.replicate (E - (k : Int) + 1).toNat '0') ++ ".0"
    else if 0 ≤ E then
      ⟨s.data.take (E.toNat + 1)⟩ ++ "." ++ ⟨s.data.drop (E.toNat + 1)⟩
    else
      "0." ++ String.mk (List.replicate (-E - 1).toNat '0') ++ s
  else
    let mant := ⟨s.data.take 1⟩ ++ (if 1 < k then "." ++ ⟨s.data.drop 1⟩ else "")
    let a := E.natAbs
    mant ++ "e" ++ (if 0 ≤ E then "+" else "-") ++ (if a < 10 then "0" else "") ++ toString a

/-- Search for the least number of significand digits `k ≤ 17` whose
correctly-rounded `k`-digit decimal rounds back to `v`, and format it. -/
def shortestFrom (v : ℚ) (E : Int) : Nat → Nat → String
  | 0, k => fmtDecimal (rhe (mulPow10 v ((k : Int) - 1 - E))) k E
  | fuel + 1, k =>
    let D := rhe (mulPow10 v ((k : Int) - 1 - E))
    let DE : Nat × Int := if D = pow10 k then (pow10 (k - 1), E + 1) else (D, E)
    let cand : ℚ := mulPow10 (Rat.divInt DE.1 1) (DE.2 - (k : Int) + 1)
    if roundDouble cand = v ∨ k = 17 then fmtDecimal DE.1 k DE.2
    else shortestFrom v E fuel (k + 1)

/-- Python `repr` of a positive double value `v` (given as the exact
rational equal to the double). -/
def pyReprPos (v : ℚ) : String :=
  let E : Int := (log10fuel 2000 (v.num.toNat * pow10 200 / v.den) : Int) - 200
  shortestFrom v E 17 1

/-- Python `repr`/`str` of a (finite, normal-range) double value. -/
def pyRepr (q : ℚ) : String :=
  if q = 0 then "0.0"
  else if 0 < q then pyReprPos q
  else "-" ++ pyReprPos (-q)

/-! ### Python `float(str)` parsing

Covers the decimal forms `[+-]ddd[.ddd][e[+-]ddd]` after stripping
whitespace (the forms exercised by this program; `inf`/`nan` spellings
and digit underscores are outside the model's scope).  The parsed exact
decimal value is rounded to the nearest double, as CPython does. -/

/-- Interpret a non-empty all-digit character list as a natural number. -/
def digitsToNat : List Char → Option Nat
  | [] => none
  | cs =>
    if cs.all (·.isDigit) then
      some (cs.foldl (fun acc c => acc * 10 + (c.toNat - '0'.toNat)) 0)
    else none

/-- Parse the significand part `ddd[.ddd]` as an exact rational. -/
def parseMantissa (cs : List Char) : Option ℚ :=
  let ip := cs.takeWhile (· ≠ '.')
  let rest := cs.dropWhile (· ≠ '.')
  match rest with
  | [] =>
    (digitsToNat ip).map (fun n => Rat.divInt n 1)
  | _ :: fp =>
    if fp.all (· ≠ '.') then
      (digitsToNat (ip ++ fp)).map (fun n => Rat.divInt n (pow10 fp.length))
    else none

/-- Parse an optionally signed exponent. -/
def parseExponent (cs : List Char) : Option Int :=
  match cs with
  | '+' :: ds => (digitsToNat ds).map (fun n => (n : Int))
  | '-' :: ds => (digitsToNat ds).map (fun n => -(n : Int))
  | ds => (digitsToNat ds).map (fun n => (n : Int))

/-- Parse an unsigned decimal float literal as an exact rational. -/
def parseUnsigned (cs : List Char) : Option ℚ :=
  let mant := cs.takeWhile (· ≠ 'e')
  let rest := cs.dropWhile (· ≠ 'e')
  match rest with
  | [] => parseMantissa mant
  | _ :: es =>
    match parseMantissa mant, parseExponent es with
    | some m, some e => some (mulPow10 m e)
    | _, _ => none

/-- Python `float(s)`: strip, lowercase, handle the sign, parse the
decimal literal, and round the exact value to the nearest double. -/
def pyFloat (s : String) : Option ℚ :=
  let cs := (pyLower (pyStrip s)).data
  match cs with
  | '+' :: rest => (parseUnsigned rest).map roundDouble
  | '-' :: rest => (parseUnsigned rest).map (fun q => roundDouble (-q))
  | rest => (parseUnsigned rest).map roundDouble

/-! ### Data model (`src/main.py`)

One `ClientRecord` per submission: the `client_details` dict built in
`main`, with its key order. -/

structure ClientRecord where
  Client : String
  energy_kwh : ℚ
  transport_km : ℚ
  waste_kg : ℚ
  total_footprint : ℚ
  deriving Repr, DecidableEq

/-- Terminal output events: `print` lines, `input` prompts, and the
debug print of the dataframe's columns in `generate_graph`. -/
inductive OutEvent
  | line (s : String)
  | prompt (s : String)
  | columnsDebug (cols : List String)
  deriving Repr, DecidableEq

/-- `calculate_footprint` (lines 16-20): the linear formula under ideal
(exact rational) arithmetic. -/
def calculate_footprint (energy distance waste : ℚ) : ℚ :=
  energy * 0.233 + distance * 0.12 + waste * 0.5

/-- The double denoted by the Python literal `0.233`. -/
def lit233 : ℚ := roundDouble (Rat.divInt 233 1000)

/-- The double denoted by the Python literal `0.12`. -/
def lit12 : ℚ := roundDouble (Rat.divInt 12 100)

/-- The double denoted by the Python literal `0.5` (exact). -/
def lit5 : ℚ := roundDouble (Rat.divInt 5 10)

/-- Exact rational multiplication, computed on numerators and denominators. -/
def qmul (a b : ℚ) : ℚ := Rat.divInt (a.num * b.num) (a.den * b.den)

/-- Exact rational addition, computed on numerators and denominators. -/
def qadd (a b : ℚ) : ℚ := Rat.divInt (a.num * b.den + b.num * a.den) (a.den * b.den)

/-- Double multiplication. -/
def dmul (a b : ℚ) : ℚ := roundDouble (qmul a b)

/-- Double addition. -/
def dadd (a b : ℚ) : ℚ := roundDouble (qadd a b)

/-- `calculate_footprint` under Python's actual binary64 semantics
(left-to-right evaluation of `energy * 0.233 + distance * 0.12 + waste * 0.5`). -/
def calculate_footprint_fp (energy distance waste : ℚ) : ℚ :=
  dadd (dadd (dmul energy lit233) (dmul distance lit12)) (dmul waste lit5)

/-! ### Record Store (`append_to_csv`, lines 23-35) -/

/-- The CSV header written by `pandas.DataFrame([client_details]).to_csv`:
the dict keys in insertion order. -/
def headerCols : List String :=
  ["Client", "energy_kwh", "transport_km", "waste_kg", "total_footprint"]

/-- The CSV cells of one record, as `to_csv` writes them (floats via
Python `str`, i.e. `pyRepr`). -/
def rowCells (r : ClientRecord) : List String :=
  [r.Client, pyRepr r.energy_kwh, pyRepr r.transport_km,
   pyRepr r.waste_kg, pyRepr r.total_footprint]

/-- `append_to_csv`: when `client_data.csv` exists, append the record row
(`mode='a'`, `header=False`); otherwise create the file with the header
row and the record row (`mode='w'`, `header=True`).  Returns the new file
content and the printed line. -/
def append_to_csv (csv : Option (List (List String))) (client_data : ClientRecord) :
    List (List String) × List OutEvent :=
  match csv with
  | some rows =>
    (rows ++ [rowCells client_data],
     [.line ("Data for " ++ client_data.Client ++ " added to CSV.")])
  | none =>
    ([headerCols, rowCells client_data],
     [.line ("Data for " ++ client_data.Client ++ " added to CSV.")])

/-! ### Trend Renderer (`generate_graph`, lines 38-69) -/

/-- Errors `pandas` raises that `generate_graph` does not catch. -/
inductive PdError
  | emptyDataError
  | keyError
  deriving Repr, DecidableEq

/-- A parsed dataframe: column names from the first line, data rows after. -/
structure Frame where
  columns : List String
  rows : List (List String)
  deriving Repr, DecidableEq

/-- `pd.read_csv`: a zero-byte file raises `EmptyDataError`; otherwise the
first row is the header and the remaining rows are the data. -/
def read_csv : List (List String) → Except PdError Frame
  | [] => .error .emptyDataError
  | first :: rest => .ok ⟨first, rest⟩

/-- `df[name]`: the column's cells (positionally), or `none` if the
column is absent (a `KeyError` in pandas). -/
def getCol (f : Frame) (name : String) : Option (List (Option String)) :=
  (f.columns.findIdx? (· == name)).map fun i => f.rows.map (fun row => row[i]?)

/-- The data plotted into `carbon_trends.png`: the chart image is a
deterministic function of these five columns (bar series for the total,
three line series), so the image file is modelled by them. -/
structure Chart where
  clients : List (Option String)
  totals : List (Option String)
  energies : List (Option String)
  transports : List (Option String)
  wastes : List (Option String)
  deriving Repr, DecidableEq

/-- One drawn element of a PDF report page (reportlab canvas calls). -/
inductive PdfItem
  | text (x y : ℚ) (s : String)
  | image (path : String) (x y w h : ℚ) (preserveAspect : Bool)
  deriving Repr, DecidableEq

/-- The file-system state the program touches: the CSV store, the chart
image, and the report files (path ↦ content). -/
structure World where
  csv : Option (List (List String))
  graph : Option Chart
  reports : List (String × List PdfItem)
  deriving Repr, DecidableEq

/-- `generate_graph`: no store file prints "No data"; otherwise read the
store (an uncaught `EmptyDataError` on a zero-byte file), print the
columns, bail out if `Client` is missing, else extract the five plotted
columns (an uncaught `KeyError` if any other column is missing) and
write the chart image. -/
def generate_graph (w : World) : Except PdError (List OutEvent × World) :=
  match w.csv with
  | none => .ok ([.line "No data found! Run the program and add client data first."], w)
  | some rows =>
    match read_csv rows with
    | .error e => .error e
    | .ok df =>
      let dbg := OutEvent.columnsDebug df.columns
      if df.columns.contains "Client" then
        match getCol df "Client", getCol df "total_footprint", getCol df "energy_kwh",
              getCol df "transport_km", getCol df "waste_kg" with
        | some cs, some ts, some es, some trs, some ws =>
          .ok ([dbg, .line "Graph saved as 'carbon_trends.png'."],
               { w with graph := some ⟨cs, ts, es, trs, ws⟩ })
        | _, _, _, _, _ => .error .keyError
      else
        .ok ([dbg, .line "Error: 'Client' column not found in CSV."], w)

/-! ### Report Generator (`create_report`, lines 72-119) -/

/-- `create_report`: the drawn items of the single-page report (all at the
source's coordinates, `height = 792` for the letter page size) and the
printed lines.  The graph section is appended only when the chart image
file exists. -/
def create_report (graph : Option Chart) (data : ClientRecord) (file_path : String) :
    List PdfItem × List OutEvent :=
  -- y coordinates: the source's running `y_position` starting at
  -- `height - 40 = 752` for the title (letter page height 792).
  let items : List PdfItem :=
    [.text 200 752 "Carbon Footprint Report",
     .text 50 712 ("Client: " ++ data.Client),
     .text 50 692 ("Energy: " ++ pyRepr data.energy_kwh ++ " kWh"),
     .text 50 672 ("Transport: " ++ pyRepr data.transport_km ++ " km"),
     .text 50 652 ("Waste: " ++ pyRepr data.waste_kg ++ " kg"),
     .text 50 632 ("Footprint: " ++ pyRepr data.total_footprint ++ " kg CO2"),
     .text 50 602 "Suggestions:",
     .text 50 582 "- Use energy-efficient appliances.",
     .text 50 567 "- Carpool or use public transport.",
     .text 50 552 "- Recycle and reduce waste."]
  if graph.isSome then
    (items ++ [.text 50 512 "Carbon Footprint Comparison Graph:",
               .image "carbon_trends.png" 50 312 500 200 true],
     [.line ("Added carbon_trends.png to " ++ file_path),
      .line ("PDF Report Created: " ++ file_path)])
  else
    (items, [.line ("PDF Report Created: " ++ file_path)])

/-! ### Session Controller (`main`, lines 122-173) -/

/-- Reading the three numeric inputs inside the `try` block: consume lines
until one fails to parse (`ValueError`) or all three parse. -/
inductive Read3Out
  | eof (tr : List OutEvent)
  | failed (tr : List OutEvent) (rest : List String)
  | parsed (e t w : ℚ) (tr : List OutEvent) (rest : List String)
  deriving Repr, DecidableEq

/-- The three `float(input(...))` reads of one loop iteration. -/
def tryRead3 : List String → Read3Out
  | [] => .eof [.prompt "Energy (kWh): "]
  | l1 :: r1 =>
    match pyFloat l1 with
    | none => .failed [.prompt "Energy (kWh): "] r1
    | some e =>
      match r1 with
      | [] => .eof [.prompt "Energy (kWh): ", .prompt "Transport (km): "]
      | l2 :: r2 =>
        match pyFloat l2 with
        | none => .failed [.prompt "Energy (kWh): ", .prompt "Transport (km): "] r2
        | some t =>
          match r2 with
          | [] => .eof [.prompt "Energy (kWh): ", .prompt "Transport (km): ",
                        .prompt "Waste (kg): "]
          | l3 :: r3 =>
            match pyFloat l3 with
            | none => .failed [.prompt "Energy (kWh): ", .prompt "Transport (km): ",
                               .prompt "Waste (kg): "] r3
            | some w => .parsed e t w [.prompt "Energy (kWh): ", .prompt "Transport (km): ",
                                       .prompt "Waste (kg): "] r3

/-- The loop's continue test: `input(...).strip().lower() != 'yes'` breaks. -/
def wantsContinue (s : String) : Bool :=
  pyLower (pyStrip s) == "yes"

/-- In-session state: the run's accumulator `client_data`, the CSV store,
and the output trace. -/
structure SessState where
  client_data : List ClientRecord
  csv : Option (List (List String))
  trace : List OutEvent
  deriving Repr, DecidableEq

/-- How the `while True` loop ended: a non-"yes" answer (`done`),
exhausted input (`eof`, an `EOFError` in Python), or exhausted fuel
(model artifact; every theorem supplies enough fuel). -/
inductive LoopExit
  | done
  | eof
  | fuelOut
  deriving Repr, DecidableEq

/-- The session state after the body of one successful iteration (source
lines 130-158): the three parsed values, the footprint, the name prompt,
`client_details` appended to the run accumulator and the CSV store, and
the continue prompt. -/
def entryState (st : SessState) (e t w : ℚ) (tr : List OutEvent) (name : String) : SessState :=
  let total := calculate_footprint_fp e t w
  let details : ClientRecord := ⟨name, e, t, w, total⟩
  let ac := append_to_csv st.csv details
  { client_data := st.client_data ++ [details]
    csv := some ac.1
    trace := st.trace ++ OutEvent.line "\nEnter client data:" :: tr ++
      [.prompt "Client Name: "] ++ ac.2 ++ [.prompt "Add another client? (yes/no): "] }

/-- The interactive `while True` loop of `main`: prompt for the three
numeric fields (a parse failure prints the error and restarts the
iteration), then the client name, build `client_details`, extend the
run accumulator and the CSV store, and ask whether to continue. -/
def sessionLoop : Nat → List String → SessState → SessState × List String × LoopExit
  | 0, inputs, st => (st, inputs, .fuelOut)
  | fuel + 1, inputs, st =>
    let enterEv := OutEvent.line "\nEnter client data:"
    match tryRead3 inputs with
    | .eof tr => ({ st with trace := st.trace ++ enterEv :: tr }, [], .eof)
    | .failed tr rest =>
      sessionLoop fuel rest
        { st with trace := st.trace ++ enterEv :: tr ++
            [.line "Invalid input. Please enter numeric values."] }
    | .parsed e t w tr rest =>
      match rest with
      | [] => ({ st with trace := st.trace ++ enterEv :: tr ++ [.prompt "Client Name: "] },
               [], .eof)
      | name :: r2 =>
        let st' := entryState st e t w tr name
        match r2 with
        | [] => (st', [], .eof)
        | ans :: r3 =>
          if wantsContinue ans then sessionLoop fuel r3 st' else (st', r3, .done)

/-- `f"Reports/{client['Client']}_report.pdf"`. -/
def reportPath (name : String) : String :=
  "Reports/" ++ name ++ "_report.pdf"

/-- Writing a file: overwrite the entry at the path if present, else add it. -/
def fsWrite : List (String × List PdfItem) → String → List PdfItem →
    List (String × List PdfItem)
  | [], p, r => [(p, r)]
  | (q, s) :: t, p, r => if q = p then (p, r) :: t else (q, s) :: fsWrite t p r

/-- Invocation-level events of `main` after the loop: the single
`generate_graph()` call and each `create_report` call with its path. -/
inductive Event
  | render
  | report (path : String)
  deriving Repr, DecidableEq

/-- The report loop at the end of `main`: one `create_report` per record
collected during this run, in order. -/
def runReports (g : Option Chart) :
    List ClientRecord → List (String × List PdfItem) →
    List (String × List PdfItem) × List OutEvent × List Event
  | [], fs => (fs, [], [])
  | c :: rest, fs =>
    let p := reportPath c.Client
    let rep := create_report g c p
    let next := runReports g rest (fsWrite fs p rep.1)
    (next.1, rep.2 ++ next.2.1, .report p :: next.2.2)

/-- The final state of a run of `main`: the world, the output trace, the
post-loop invocation events, and whether the process finished without an
uncaught exception. -/
structure MainResult where
  world : World
  trace : List OutEvent
  events : List Event
  ok : Bool
  deriving Repr, DecidableEq

/-- `main`: run the interactive loop, then `generate_graph()` once, then
one `create_report` per collected client record. -/
def main (fuel : Nat) (inputs : List String) (w : World) : MainResult :=
  let res := sessionLoop fuel inputs ⟨[], w.csv, []⟩
  let st := res.1
  match res.2.2 with
  | .done =>
    let w1 : World := { w with csv := st.csv }
    match generate_graph w1 with
    | .error _ => ⟨w1, st.trace, [.render], false⟩
    | .ok gr =>
      let rr := runReports gr.2.graph st.client_data gr.2.reports
      ⟨{ gr.2 with reports := rr.1 },
       st.trace ++ gr.1 ++ rr.2.1 ++ [.line "All reports generated successfully."],
       .render :: rr.2.2, true⟩
  | _ => ⟨{ w with csv := st.csv }, st.trace, [], false⟩

/-! ### Derived notions used by the statements -/

/-- Appending a list of records in order, starting from a given store state. -/
def appendAll (recs : List ClientRecord) (csv : Option (List (List String))) :
    Option (List (List String)) :=
  recs.foldl (fun c r => some (append_to_csv c r).1) csv

/-- Whether a drawn report element is an embedded image. -/
def isImageItem : PdfItem → Bool
  | .image .. => true
  | _ => false

/-- A store state is well formed when it is absent or was written by this
program: the fixed header line first. -/
def storeWF : Option (List (List String)) → Prop
  | none => True
  | some rows => ∃ ds, rows = headerCols :: ds

/-- The chart `generate_graph` draws from a well-formed store: the five
columns of the data rows. -/
def chartOf (ds : List (List String)) : Chart :=
  ⟨ds.map (fun row => row[0]?), ds.map (fun row => row[4]?), ds.map (fun row => row[1]?),
   ds.map (fun row => row[2]?), ds.map (fun row => row[3]?)⟩

/-- Concrete record used by witnesses: client "Acme", all fields 1. -/
def recA : ClientRecord := ⟨"Acme", 1, 1, 1, 1⟩

/-- Concrete record used by witnesses: client "Acme", all fields 2. -/
def recB : ClientRecord := ⟨"Acme", 2, 2, 2, 2⟩

/-- The session state produced by the concrete witness run. -/
def mainWitS : SessState := (sessionLoop 2 ["1", "2", "3", "Bob", "no"] ⟨[], none, []⟩).1

/-! ## Theorems -/

/-- Helper: appending records to an existing store appends their rows in order. -/
theorem appendAll_some (recs : List ClientRecord) (rows : List (List String)) :
    appendAll recs (some rows) = some (rows ++ recs.map rowCells) := by
  induction recs generalizing rows with
  | nil => simp [appendAll]
  | cons r rest ih =>
    have : appendAll (r :: rest) (some rows) = appendAll rest (some (rows ++ [rowCells r])) := rfl
    rw [this, ih]
    simp

/-- C1: for every triple of non-negative inputs, `calculate_footprint`
returns exactly `0.233*e + 0.12*t + 0.5*w`; it is a pure total function of
its three arguments (so deterministic, with no error conditions). -/
theorem calculate_footprint_linear_formula (e t w : ℚ)
    (_he : 0 ≤ e) (_ht : 0 ≤ t) (_hw : 0 ≤ w) :
    calculate_footprint e t w = 0.233 * e + 0.12 * t + 0.5 * w := by
  unfold calculate_footprint
  ring

/-- C1 witness: the formula at the concrete input (10, 5, 2). -/
theorem calculate_footprint_linear_formula_witness :
    (0 : ℚ) ≤ 10 ∧ (0 : ℚ) ≤ 5 ∧ (0 : ℚ) ≤ 2 ∧
      calculate_footprint 10 5 2 = 0.233 * 10 + 0.12 * 5 + 0.5 * 2 :=
  ⟨by norm_num, by norm_num, by norm_num,
   calculate_footprint_linear_formula 10 5 2 (by norm_num) (by norm_num) (by norm_num)⟩

/-- C2: appending to an absent store writes the fixed header row and the
record row; appending to an existing store appends only the record row;
hence appending a nonempty batch of records to a fresh store yields
exactly the header row followed by the records' rows in order. -/
theorem append_to_csv_header_invariant :
    (∀ r, (append_to_csv none r).1 = [headerCols, rowCells r]) ∧
    (∀ rows r, (append_to_csv (some rows) r).1 = rows ++ [rowCells r]) ∧
    (∀ r recs, appendAll (r :: recs) none = some (headerCols :: (r :: recs).map rowCells)) := by
  refine ⟨fun r => rfl, fun rows r => rfl, fun r recs => ?_⟩
  have : appendAll (r :: recs) none = appendAll recs (some [headerCols, rowCells r]) := rfl
  rw [this, appendAll_some]
  simp

/-- C3: reading a stored file whose header lacks the `Client` column makes
the renderer print the data error and return before any column access,
leaving the whole world (chart image included) untouched, with no
uncaught exception. -/
theorem generate_graph_missing_client_column (w : World) (hdr : List String)
    (rows : List (List String)) (hcsv : w.csv = some (hdr :: rows))
    (hcl : hdr.contains "Client" = false) :
    generate_graph w =
      .ok ([.columnsDebug hdr, .line "Error: 'Client' column not found in CSV."], w) := by
  obtain ⟨c, g, r⟩ := w
  simp only at hcsv
  subst hcsv
  have hmem : "Client" ∉ hdr := by simpa using hcl
  simp [generate_graph, read_csv, hmem]

/-- C3 witness: a concrete foreign store without a `Client` column. -/
theorem generate_graph_missing_client_column_witness :
    generate_graph ⟨some [["Name", "total"], ["a", "1"]], none, []⟩ =
      .ok ([.columnsDebug ["Name", "total"],
            .line "Error: 'Client' column not found in CSV."],
           ⟨some [["Name", "total"], ["a", "1"]], none, []⟩) :=
  generate_graph_missing_client_column _ ["Name", "total"] [["a", "1"]] rfl (by decide)

/-- C4 counterexample: on a store file that exists but is empty (zero
bytes) the renderer does not report "no data"; the `pd.read_csv` call
raises an uncaught `EmptyDataError` instead, so the claim fails for the
"empty" half of its quantification. -/
theorem generate_graph_empty_file_uncaught_error :
    generate_graph ⟨some [], none, []⟩ = .error .emptyDataError := rfl

/-- C4 (amended): when the store file is absent, the renderer reports the
"no data" condition and leaves the world (chart image included)
untouched. -/
theorem generate_graph_absent_store_no_data (g : Option Chart)
    (r : List (String × List PdfItem)) :
    generate_graph ⟨none, g, r⟩ =
      .ok ([.line "No data found! Run the program and add client data first."],
           ⟨none, g, r⟩) := rfl

/-- C7: the report embeds the chart image if and only if the chart image
file exists at generation time; when it is absent the very same report is
produced minus exactly the image section, and the report is still written
(no error). -/
theorem create_report_image_iff_exists (g : Option Chart) (data : ClientRecord) (p : String) :
    ((create_report g data p).1.any isImageItem = g.isSome) ∧
    (create_report g data p).1 =
      (create_report none data p).1 ++
        (if g.isSome then
          [.text 50 512 "Carbon Footprint Comparison Graph:",
           .image "carbon_trends.png" 50 312 500 200 true]
         else []) ∧
    .line ("PDF Report Created: " ++ p) ∈ (create_report g data p).2 := by
  cases g <;> simp [create_report, isImageItem]

/-- C5: after an iteration that read its three numeric values and a client
name, the loop runs another iteration if and only if the continue answer,
stripped of whitespace and lowercased, equals "yes"; any other answer
terminates the loop. -/
theorem session_continue_iff_yes (fuel : Nat) (inputs : List String) (st : SessState)
    (e t w : ℚ) (tr : List OutEvent) (name ans : String) (r3 : List String)
    (h : tryRead3 inputs = .parsed e t w tr (name :: ans :: r3)) :
    sessionLoop (fuel + 1) inputs st =
      if pyLower (pyStrip ans) = "yes"
      then sessionLoop fuel r3 (entryState st e t w tr name)
      else (entryState st e t w tr name, r3, .done) := by
  by_cases hc : pyLower (pyStrip ans) = "yes" <;>
    simp [sessionLoop, h, wantsContinue, hc]

set_option maxRecDepth 100000 in
/-- C5 witness: answering "no" terminates the loop after one entry. -/
theorem session_continue_iff_yes_witness :
    sessionLoop 1 ["1", "2", "3", "Bob", "no"] ⟨[], none, []⟩ =
      (entryState ⟨[], none, []⟩ 1 2 3
        [.prompt "Energy (kWh): ", .prompt "Transport (km): ", .prompt "Waste (kg): "] "Bob",
       [], .done) := by
  rw [session_continue_iff_yes 0 ["1", "2", "3", "Bob", "no"] ⟨[], none, []⟩ 1 2 3
    [.prompt "Energy (kWh): ", .prompt "Transport (km): ", .prompt "Waste (kg): "]
    "Bob" "no" [] (by decide)]
  decide

/-- Helper: a failed numeric read printed one, two or three of the numeric
prompts, and nothing else. -/
theorem tryRead3_failed_prompts (inputs : List String) (tr : List OutEvent)
    (rest : List String) (h : tryRead3 inputs = .failed tr rest) :
    tr = [.prompt "Energy (kWh): "] ∨
    tr = [.prompt "Energy (kWh): ", .prompt "Transport (km): "] ∨
    tr = [.prompt "Energy (kWh): ", .prompt "Transport (km): ", .prompt "Waste (kg): "] := by
  cases inputs with
  | nil => simp [tryRead3] at h
  | cons l1 r1 =>
    simp only [tryRead3] at h
    cases h1 : pyFloat l1 with
    | none => simp [h1] at h; exact Or.inl h.1.symm
    | some e =>
      cases r1 with
      | nil => simp [h1] at h
      | cons l2 r2 =>
        simp only [h1] at h
        cases h2 : pyFloat l2 with
        | none => simp [h2] at h; exact Or.inr (Or.inl h.1.symm)
        | some t =>
          cases r2 with
          | nil => simp [h2] at h
          | cons l3 r3 =>
            simp only [h2] at h
            cases h3 : pyFloat l3 with
            | none => simp [h3] at h; exact Or.inr (Or.inr h.1.symm)
            | some u => simp [h3] at h

/-- C6: when any of the three numeric prompts receives input that does not
parse as a float, the iteration prints the error message and the loop
restarts from the top of the iteration: the client-name prompt was never
reached, nothing was appended to the store, and the records accumulated
so far are kept. -/
theorem session_bad_input_recovery (fuel : Nat) (inputs rest : List String)
    (st : SessState) (tr : List OutEvent)
    (h : tryRead3 inputs = .failed tr rest) :
    sessionLoop (fuel + 1) inputs st =
      sessionLoop fuel rest
        { st with trace := st.trace ++ OutEvent.line "\nEnter client data:" :: tr ++
            [.line "Invalid input. Please enter numeric values."] } ∧
    ({ st with trace := st.trace ++ OutEvent.line "\nEnter client data:" :: tr ++
        [.line "Invalid input. Please enter numeric values."]} : SessState).client_data =
      st.client_data ∧
    ({ st with trace := st.trace ++ OutEvent.line "\nEnter client data:" :: tr ++
        [.line "Invalid input. Please enter numeric values."]} : SessState).csv = st.csv ∧
    OutEvent.line "Invalid input. Please enter numeric values." ∈
      st.trace ++ OutEvent.line "\nEnter client data:" :: tr ++
        [.line "Invalid input. Please enter numeric values."] ∧
    OutEvent.prompt "Client Name: " ∉ tr := by
  refine ⟨by simp [sessionLoop, h], rfl, rfl, by simp, ?_⟩
  rcases tryRead3_failed_prompts inputs tr rest h with h' | h' | h' <;> subst h' <;> decide

/-- C6 witness: the non-numeric first entry "abc" on an empty session. -/
theorem session_bad_input_recovery_witness :
    sessionLoop 1 ["abc"] ⟨[], none, []⟩ =
      sessionLoop 0 []
        ⟨[], none,
         [.line "\nEnter client data:", .prompt "Energy (kWh): ",
          .line "Invalid input. Please enter numeric values."]⟩ ∧
    OutEvent.prompt "Client Name: " ∉ [OutEvent.prompt "Energy (kWh): "] := by
  have h := session_bad_input_recovery 0 ["abc"] [] ⟨[], none, []⟩
    [.prompt "Energy (kWh): "] (by decide)
  exact ⟨h.1, h.2.2.2.2⟩

/-- Helper: the Python literal `3.93` as an integer ratio. -/
theorem q393 : (3.93 : ℚ) = Rat.divInt 393 100 := by
  rw [Rat.divInt_eq_div]
  norm_num

set_option maxRecDepth 100000 in
/-- C9: submitting energy 10, transport 5, waste 2 stores a
`total_footprint` that is (as a double) equal to the literal `3.93` and
formats exactly as the string "3.93"; the run stores the row
`Acme,10.0,5.0,2.0,3.93` and the generated report contains the literal
line `Footprint: 3.93 kg CO2`. -/
theorem acme_example_footprint_3_93 :
    calculate_footprint_fp 10 5 2 = roundDouble (3.93 : ℚ) ∧
    pyRepr (calculate_footprint_fp 10 5 2) = "3.93" ∧
    (main 2 ["10", "5", "2", "Acme", "no"] ⟨none, none, []⟩).world.csv =
      some [headerCols, ["Acme", "10.0", "5.0", "2.0", "3.93"]] ∧
    PdfItem.text 50 632 "Footprint: 3.93 kg CO2" ∈
      (((main 2 ["10", "5", "2", "Acme", "no"] ⟨none, none, []⟩).world.reports.lookup
          (reportPath "Acme")).getD []) := by
  refine ⟨?_, by decide, by decide, by decide⟩
  rw [q393]
  decide

/-- Helper: a completed entry leaves the store with the fixed header first. -/
theorem entryState_csv_wf (st : SessState) (e t w : ℚ) (tr : List OutEvent) (name : String)
    (h : storeWF st.csv) :
    ∃ ds, (entryState st e t w tr name).csv = some (headerCols :: ds) := by
  cases hcsv : st.csv with
  | none => exact ⟨[rowCells ⟨name, e, t, w, calculate_footprint_fp e t w⟩],
      by simp [entryState, append_to_csv, hcsv]⟩
  | some rows =>
    rw [hcsv] at h
    obtain ⟨ds, rfl⟩ := h
    exact ⟨ds ++ [rowCells ⟨name, e, t, w, calculate_footprint_fp e t w⟩],
      by simp [entryState, append_to_csv, hcsv]⟩

/-- Helper: the session loop preserves store well-formedness, and a normal
exit (a non-"yes" answer) leaves a store that starts with the header. -/
theorem sessionLoop_csv_wf (fuel : Nat) :
    ∀ (inputs : List String) (st : SessState), storeWF st.csv →
      storeWF (sessionLoop fuel inputs st).1.csv ∧
      ((sessionLoop fuel inputs st).2.2 = .done →
        ∃ ds, (sessionLoop fuel inputs st).1.csv = some (headerCols :: ds)) := by
  induction fuel with
  | zero =>
    intro inputs st h
    exact ⟨h, by simp [sessionLoop]⟩
  | succ fuel ih =>
    intro inputs st h
    cases htr : tryRead3 inputs with
    | eof tr =>
      simp only [sessionLoop, htr]
      exact ⟨h, by simp⟩
    | failed tr rest =>
      simp only [sessionLoop, htr]
      exact ih rest _ h
    | parsed e t w tr rest =>
      cases rest with
      | nil =>
        simp only [sessionLoop, htr]
        exact ⟨h, by simp⟩
      | cons name r2 =>
        obtain ⟨ds, hds⟩ := entryState_csv_wf st e t w tr name h
        have hwf' : storeWF (entryState st e t w tr name).csv := by
          rw [hds]; exact ⟨ds, rfl⟩
        cases r2 with
        | nil =>
          simp only [sessionLoop, htr]
          exact ⟨hwf', by simp⟩
        | cons ans r3 =>
          by_cases hc : wantsContinue ans
          · simp only [sessionLoop, htr, hc, if_true]
            exact ih r3 _ hwf'
          · simp only [sessionLoop, htr, hc, if_false]
            exact ⟨hwf', fun _ => ⟨ds, hds⟩⟩

/-- Helper: the renderer on a well-formed store saves the chart of its
data rows. -/
theorem generate_graph_wf (g : Option Chart) (r : List (String × List PdfItem))
    (ds : List (List String)) :
    generate_graph ⟨some (headerCols :: ds), g, r⟩ =
      .ok ([.columnsDebug headerCols, .line "Graph saved as 'carbon_trends.png'."],
           ⟨some (headerCols :: ds), some (chartOf ds), r⟩) := rfl

/-- Helper: the report loop emits one report event per collected record,
in order, with the path derived from the client name. -/
theorem runReports_events (g : Option Chart) :
    ∀ (recs : List ClientRecord) (fs : List (String × List PdfItem)),
      (runReports g recs fs).2.2 = recs.map (fun r => Event.report (reportPath r.Client)) := by
  intro recs
  induction recs with
  | nil => intro fs; rfl
  | cons c rest ih =>
    intro fs
    simp only [runReports, List.map_cons, List.cons.injEq]
    exact ⟨trivial, ih _⟩

set_option maxRecDepth 100000 in
/-- C8: when the session loop ends normally on a well-formed (or absent)
initial store, `main` performs the single render invocation first and
then exactly one report per record collected during this run (regardless
of what the historical store contains), at `Reports/<name>_report.pdf`,
and the process finishes without an uncaught error. -/
theorem main_render_once_then_reports (fuel : Nat) (inputs rest : List String)
    (w : World) (st : SessState)
    (hdone : sessionLoop fuel inputs ⟨[], w.csv, []⟩ = (st, rest, .done))
    (hwf : storeWF w.csv) :
    (main fuel inputs w).events =
      .render :: st.client_data.map (fun r => Event.report (reportPath r.Client)) ∧
    (main fuel inputs w).ok = true := by
  have hwfst := sessionLoop_csv_wf fuel inputs ⟨[], w.csv, []⟩ hwf
  rw [hdone] at hwfst
  obtain ⟨ds, hds⟩ := hwfst.2 rfl
  obtain ⟨wc, wg, wr⟩ := w
  dsimp only at hdone hds
  simp only [main, hdone]
  rw [show ({ World.mk wc wg wr with csv := st.csv } : World) = ⟨st.csv, wg, wr⟩ from rfl,
      hds, generate_graph_wf]
  simp only [MainResult.events, MainResult.ok]
  exact ⟨by rw [runReports_events], trivial⟩

set_option maxRecDepth 100000 in
/-- C8 witness: a concrete one-client run on a fresh store. -/
theorem main_render_once_then_reports_witness :
    (main 2 ["1", "2", "3", "Bob", "no"] ⟨none, none, []⟩).events =
      .render :: mainWitS.client_data.map (fun r => Event.report (reportPath r.Client)) ∧
    (main 2 ["1", "2", "3", "Bob", "no"] ⟨none, none, []⟩).ok = true :=
  main_render_once_then_reports 2 ["1", "2", "3", "Bob", "no"] [] ⟨none, none, []⟩ mainWitS
    (by decide) trivial

/-- Helper: report paths determine the client name. -/
theorem reportPath_inj {a b : String} (h : reportPath a = reportPath b) : a = b := by
  have hd : "Reports/".data ++ (a.data ++ "_report.pdf".data) =
      "Reports/".data ++ (b.data ++ "_report.pdf".data) := by
    simpa [reportPath, String.data_append, List.append_assoc] using congrArg String.data h
  have h1 := List.append_right_injective "Reports/".data hd
  have h2 := List.append_left_injective "_report.pdf".data h1
  exact String.ext h2

/-- Helper: writing a file overwrites the entry at its path and leaves
every other path's entry unchanged. -/
theorem fsWrite_lookup (fs : List (String × List PdfItem)) (p q : String) (r : List PdfItem) :
    (fsWrite fs p r).lookup q = if q = p then some r else fs.lookup q := by
  induction fs with
  | nil =>
    by_cases hq : q = p
    · subst hq; simp [fsWrite, List.lookup]
    · have hb : (q == p) = false := beq_eq_false_iff_ne.mpr hq
      simp [fsWrite, List.lookup, hb, hq]
  | cons hd tl ih =>
    obtain ⟨k, v⟩ := hd
    by_cases hk : k = p
    · subst hk
      by_cases hq : q = k
      · subst hq; simp [fsWrite, List.lookup]
      · have hb : (q == k) = false := beq_eq_false_iff_ne.mpr hq
        simp [fsWrite, List.lookup, hb, hq]
    · by_cases hq : q = k
      · have hb : (q == k) = true := beq_iff_eq.mpr hq
        have hqp : ¬ q = p := fun h => hk (hq.symm.trans h)
        simp [fsWrite, hk, List.lookup, hb, hqp]
      · have hb : (q == k) = false := beq_eq_false_iff_ne.mpr hq
        simp [fsWrite, hk, List.lookup, hb, ih]

/-- Helper: the paths present after a write. -/
theorem fsWrite_keys_mem (fs : List (String × List PdfItem)) (p q : String) (r : List PdfItem) :
    q ∈ (fsWrite fs p r).map Prod.fst ↔ q ∈ fs.map Prod.fst ∨ q = p := by
  induction fs with
  | nil => simp [fsWrite]
  | cons hd tl ih =>
    obtain ⟨k, v⟩ := hd
    by_cases hk : k = p
    · subst hk; simp [fsWrite]; tauto
    · simp [fsWrite, hk, ih]; tauto

/-- Helper: a write keeps the path list duplicate-free. -/
theorem fsWrite_keys_nodup (fs : List (String × List PdfItem)) (p : String) (r : List PdfItem)
    (h : (fs.map Prod.fst).Nodup) : ((fsWrite fs p r).map Prod.fst).Nodup := by
  induction fs with
  | nil => simp [fsWrite]
  | cons hd tl ih =>
    obtain ⟨k, v⟩ := hd
    simp only [List.map_cons, List.nodup_cons] at h
    by_cases hk : k = p
    · subst hk
      simpa [fsWrite, List.nodup_cons] using h
    · simp only [fsWrite, hk, if_neg, List.map_cons, List.nodup_cons, ite_false]
      refine ⟨fun hmem => ?_, ih h.2⟩
      rcases (fsWrite_keys_mem tl p k r).1 hmem with h' | h'
      · exact h.1 h'
      · exact hk h'

/-- Helper: a successful lookup means the path is present. -/
theorem lookup_mem_keys (fs : List (String × List PdfItem)) (p : String) (v : List PdfItem)
    (h : fs.lookup p = some v) : p ∈ fs.map Prod.fst := by
  induction fs with
  | nil => simp [List.lookup] at h
  | cons hd tl ih =>
    obtain ⟨k, w⟩ := hd
    by_cases hk : p = k
    · subst hk; simp
    · have hb : (p == k) = false := beq_eq_false_iff_ne.mpr hk
      simp only [List.lookup, hb] at h
      simp [ih h]

/-- Helper: after the report loop, the file at a client's path is the
report of the last collected record with that client name (or whatever
was there before, if none was collected). -/
theorem runReports_lookup (g : Option Chart) (name : String) :
    ∀ (recs : List ClientRecord) (fs : List (String × List PdfItem)),
      (runReports g recs fs).1.lookup (reportPath name) =
        ((recs.filter (fun r => r.Client == name)).getLast?).elim
          (fs.lookup (reportPath name))
          (fun r => some (create_report g r (reportPath name)).1) := by
  intro recs
  induction recs with
  | nil => intro fs; simp [runReports]
  | cons c rest ih =>
    intro fs
    have hstep : (runReports g (c :: rest) fs).1 =
        (runReports g rest (fsWrite fs (reportPath c.Client)
          (create_report g c (reportPath c.Client)).1)).1 := rfl
    rw [hstep, ih]
    by_cases hc : c.Client = name
    · subst hc
      cases hfil : rest.filter (fun r => r.Client == c.Client) with
      | nil => simp [List.filter_cons, hfil, fsWrite_lookup]
      | cons f1 fs1 =>
        rw [List.getLast?_eq_getLast _ (by simp : f1 :: fs1 ≠ [])]
        simp [List.filter_cons, hfil,
          List.getLast?_eq_getLast (f1 :: fs1) (by simp)]
    · have hpn : ¬ reportPath name = reportPath c.Client :=
        fun hEq => hc (reportPath_inj hEq).symm
      cases hfil : rest.filter (fun r => r.Client == name) with
      | nil => simp [List.filter_cons, hc, hfil, fsWrite_lookup, hpn]
      | cons f1 fs1 =>
        have hcb : (c.Client == name) = false := beq_eq_false_iff_ne.mpr hc
        simp only [List.filter_cons, hcb, cond_false, if_false, Bool.false_eq_true, ite_false,
          hfil]
        rw [List.getLast?_eq_getLast (f1 :: fs1) (by simp)]
        rfl

/-- Helper: the report loop keeps the file table free of duplicate paths. -/
theorem runReports_keys_nodup (g : Option Chart) :
    ∀ (recs : List ClientRecord) (fs : List (String × List PdfItem)),
      (fs.map Prod.fst).Nodup → ((runReports g recs fs).1.map Prod.fst).Nodup := by
  intro recs
  induction recs with
  | nil => intro fs h; exact h
  | cons c rest ih =>
    intro fs h
    exact ih _ (fsWrite_keys_nodup fs _ _ h)

/-- C10: records sharing a client name share the report path
`Reports/<name>_report.pdf`, so the report written for the last such
record in the run overwrites the earlier ones: after the report loop the
path holds exactly the last same-named record's report, and only one
file exists at that path. -/
theorem duplicate_client_report_overwrite (g : Option Chart)
    (fs0 : List (String × List PdfItem)) (recs : List ClientRecord) (name : String)
    (hnd : (fs0.map Prod.fst).Nodup)
    (hne : recs.filter (fun r => r.Client == name) ≠ []) :
    (∀ r1 r2 : ClientRecord, r1 ∈ recs → r2 ∈ recs → r1.Client = r2.Client →
        reportPath r1.Client = reportPath r2.Client) ∧
    (runReports g recs fs0).1.lookup (reportPath name) =
      some (create_report g ((recs.filter (fun r => r.Client == name)).getLast hne)
              (reportPath name)).1 ∧
    ((runReports g recs fs0).1.map Prod.fst).count (reportPath name) = 1 := by
  have hlook : (runReports g recs fs0).1.lookup (reportPath name) =
      some (create_report g ((recs.filter (fun r => r.Client == name)).getLast hne)
              (reportPath name)).1 := by
    rw [runReports_lookup, List.getLast?_eq_getLast _ hne]
    rfl
  refine ⟨fun r1 r2 _ _ h => by rw [h], hlook, ?_⟩
  exact List.count_eq_one_of_mem (runReports_keys_nodup g recs fs0 hnd)
    (lookup_mem_keys _ _ _ hlook)

set_option maxRecDepth 100000 in
/-- C10 witness: two records named "Acme" in one run; the surviving file
is the second record's report and the path occurs once. -/
theorem duplicate_client_report_overwrite_witness :
    (∀ r1 r2 : ClientRecord, r1 ∈ [recA, recB] → r2 ∈ [recA, recB] → r1.Client = r2.Client →
        reportPath r1.Client = reportPath r2.Client) ∧
    (runReports none [recA, recB] []).1.lookup (reportPath "Acme") =
      some (create_report none (([recA, recB].filter (fun r => r.Client == "Acme")).getLast
              (by decide)) (reportPath "Acme")).1 ∧
    ((runReports none [recA, recB] []).1.map Prod.fst).count (reportPath "Acme") = 1 :=
  duplicate_client_report_overwrite none [] [recA, recB] "Acme" (by simp) (by decide)

end CarbonTracker
